import Mathlib

/-!
Shallow embedding of the minidb in-memory key/value store with per-key
reservation locks (src/minidb/main.go).

The three HTTP handlers (handleReservation, handleUpdate, handleSet) are
modelled as pure functions over an explicit cache state.  The monitor wait
loop of the source (`for entry.lockID != "" { entry.cond.Wait() }`) is
modelled by its sequential semantics: the loop exits immediately iff the
lock token is empty, and a caller whose loop guard holds at entry is
reported as `blocked`.  Token generation (`uuid()`) is modelled by passing
the generated tokens as explicit arguments; the source's uuid strings are
never empty (five hyphen-separated hex groups).  The `cond.Broadcast()`
call is surfaced as an explicit boolean output so that claims about waking
waiters can be stated.

A second, event-trace embedding (`Event`, the `*Trace` definitions)
records the lock and field-access operations each handler performs, in
source order, to settle the claims about the locking discipline itself.
-/

namespace MiniDB

/-- An Entry in the cache, mirroring the source's `Entry` struct: the
current value and the current lock token (`lockID = ""` means unlocked).
The `sync.RWMutex` and `sync.Cond` fields carry no data and are modelled
by the trace embedding below. -/
structure Entry where
  value : String
  lockID : String
deriving DecidableEq, Repr

/-- The cache storage, mirroring `Cache.storage map[string]*Entry`:
an association list from key to Entry (first match wins). -/
structure Cache where
  storage : List (String × Entry)
deriving DecidableEq, Repr

/-- Map lookup, mirroring `self.cache.storage[key]`. -/
def cacheLookup : List (String × Entry) → String → Option Entry
  | [], _ => none
  | (k, e) :: rest, key => if k = key then some e else cacheLookup rest key

/-- Map store, mirroring `self.cache.storage[key] = entry` (overwrite the
binding for `key` if present, otherwise add it). -/
def cacheInsert : List (String × Entry) → String → Entry → List (String × Entry)
  | [], key, e => [(key, e)]
  | (k, e0) :: rest, key, e =>
      if k = key then (key, e) :: rest else (k, e0) :: cacheInsert rest key e

/-- Result of `handleReservation`: 404 on an unknown key; `blocked` when
the wait-loop guard holds (sequentially, the caller waits on the
condition variable); otherwise 200 with the fresh lock token and the
entry's value. -/
inductive ReserveResult where
  | notFound
  | blocked
  | ok (lockID : String) (value : String)
deriving DecidableEq, Repr

/-- Result of `handleUpdate`: 400 when the `release` query parameter is
absent; 404 on an unknown key; 401 on a token mismatch; 204 on success. -/
inductive UpdateResult where
  | badRequest
  | notFound
  | unauthorized
  | noContent
deriving DecidableEq, Repr

/-- Result of `handleSet`: `blocked` when the entry pre-exists and its
wait-loop guard holds; otherwise 200 with the fresh lock token. -/
inductive SetResult where
  | blocked
  | ok (lockID : String)
deriving DecidableEq, Repr

/-- The HTTP status code written by `handleUpdate` for each outcome. -/
def updateStatus : UpdateResult → Nat
  | UpdateResult.badRequest => 400
  | UpdateResult.notFound => 404
  | UpdateResult.unauthorized => 401
  | UpdateResult.noContent => 204

/-- The source's release test `len(release) > 0 && release[0] == "true"`:
only the first value of the `release` query parameter is compared, and
only against the exact string "true". -/
def releaseRequested : List String → Bool
  | [] => false
  | r :: _ => if r = "true" then true else false

/-- `handleReservation` (main.go lines 78-108): look the key up under the
cache read lock; 404 if absent; otherwise run the monitor wait loop
(block while `lockID` is non-empty), install a fresh token and answer
with that token and the entry's value.  `freshToken` stands for the
`uuid()` call at line 101. -/
def handleReservation (c : Cache) (key freshToken : String) :
    ReserveResult × Cache :=
  match cacheLookup c.storage key with
  | none => (ReserveResult.notFound, c)
  | some e =>
      if e.lockID = "" then
        (ReserveResult.ok freshToken e.value,
          { storage := cacheInsert c.storage key
              { value := e.value, lockID := freshToken } })
      else (ReserveResult.blocked, c)

/-- `handleUpdate` (main.go lines 112-152): the body is given (its read
already succeeded; the read-failure path appears in the trace embedding);
400 when the `release` query parameter is absent from the query map; look
the key up under the cache read lock, 404 if absent; 401 when the
presented `lockID` differs from the entry's current one, with no
mutation; otherwise store the body as the value and, when
`releaseRequested`, broadcast to the waiters and clear the lock token.
The final boolean reports whether `entry.cond.Broadcast()` ran. -/
def handleUpdate (c : Cache) (key lockID body : String)
    (release : Option (List String)) : UpdateResult × Cache × Bool :=
  match release with
  | none => (UpdateResult.badRequest, c, false)
  | some rel =>
      match cacheLookup c.storage key with
      | none => (UpdateResult.notFound, c, false)
      | some e =>
          if e.lockID = lockID then
            if releaseRequested rel then
              (UpdateResult.noContent,
                { storage := cacheInsert c.storage key
                    { value := body, lockID := "" } }, true)
            else
              (UpdateResult.noContent,
                { storage := cacheInsert c.storage key
                    { value := body, lockID := e.lockID } }, false)
          else (UpdateResult.unauthorized, c, false)

/-- The create-if-absent phase of `handleSet` (main.go lines 167-175),
run under the cache write lock: return the entry, the `ok` flag of the
map lookup, and the possibly extended cache.  When the key is absent a
new entry is inserted whose `lockID` is already set to a fresh uuid
(`creatorToken`, line 171) so no other routine can lock it first. -/
def setCreatePhase (c : Cache) (key creatorToken : String) :
    Entry × Bool × Cache :=
  match cacheLookup c.storage key with
  | some e => (e, true, c)
  | none =>
      let created : Entry := { value := "", lockID := creatorToken }
      (created, false, { storage := cacheInsert c.storage key created })

/-- `handleSet` (main.go lines 155-195): after the create phase, the wait
loop `for ok && entry.lockID != ""` runs only for a pre-existing entry
(for a just-created one `ok` is false, so there is no wait even though
its `lockID` is the non-empty creator token); once past the loop a
second fresh uuid (`freshToken`, line 184) is stored as the lock token
together with the body, and that token is returned. -/
def handleSet (c : Cache) (key body creatorToken freshToken : String) :
    SetResult × Cache :=
  match setCreatePhase c key creatorToken with
  | (e, ok, c1) =>
      if ok ∧ e.lockID ≠ "" then (SetResult.blocked, c1)
      else
        (SetResult.ok freshToken,
          { storage := cacheInsert c1.storage key
              { value := body, lockID := freshToken } })

/-! ### Event-trace embedding of the handlers' locking behaviour

Each handler path is transcribed, in source order, as the list of
lock/unlock operations and accesses to a shared entry's `value` and
`lockID` fields that it performs. -/

/-- One observable operation of a handler: reading the request body,
taking or releasing the cache's RWMutex (read or write side), taking or
releasing an entry's mutex, accessing an entry's `lockID` or `value`
field, or using the entry's condition variable. -/
inductive Event where
  | readBody
  | cacheRLock
  | cacheRUnlock
  | cacheLock
  | cacheUnlock
  | entryLock
  | entryUnlock
  | readLockID
  | writeLockID
  | readValue
  | writeValue
  | condWait
  | condBroadcast
deriving DecidableEq, Repr

/-- `handleUpdate`, body-read-error path (lines 114-118): the body read
fails and the handler calls `self.cache.Unlock()` before returning —
without ever having called `self.cache.Lock()`. -/
def updateBodyErrTrace : List Event :=
  [Event.readBody, Event.cacheUnlock]

/-- `handleUpdate`, missing-`release` path (lines 121-125). -/
def updateBadRequestTrace : List Event :=
  [Event.readBody]

/-- `handleUpdate`, unknown-key path (lines 131-137). -/
def updateNotFoundTrace : List Event :=
  [Event.readBody, Event.cacheRLock, Event.cacheRUnlock]

/-- `handleUpdate`, token-mismatch path (lines 131-141): the comparison
at line 139 reads `entry.lockID` with no entry lock held. -/
def updateUnauthorizedTrace : List Event :=
  [Event.readBody, Event.cacheRLock, Event.cacheRUnlock, Event.readLockID]

/-- `handleUpdate`, success path with release (lines 131-151): read
`entry.lockID` (line 139), write `entry.value` (line 144), broadcast
(line 147) and write `entry.lockID` (line 148) — at no point is
`entry.Lock()` taken. -/
def updateReleaseTrace : List Event :=
  [Event.readBody, Event.cacheRLock, Event.cacheRUnlock, Event.readLockID,
   Event.writeValue, Event.condBroadcast, Event.writeLockID]

/-- `handleUpdate`, success path without release (lines 131-151). -/
def updateNoReleaseTrace : List Event :=
  [Event.readBody, Event.cacheRLock, Event.cacheRUnlock, Event.readLockID,
   Event.writeValue]

/-- `handleSet`, body-read-error path (lines 159-163): the body read
fails and the handler calls `self.cache.Unlock()` — the cache write lock
is only ever taken at line 167, after the body read. -/
def setBodyErrTrace : List Event :=
  [Event.readBody, Event.cacheUnlock]

/-- `handleSet`, new-key success path (lines 155-194): body read, cache
write lock around creation (the `lockID` store at line 171 happens while
the entry is still private, before publication at line 173), then the
entry lock around the stores at lines 184-185; the wait-loop guard is not
even read because `ok` is false.  Line 189 reads `entry.lockID` again
after `entry.Unlock()`. -/
def setNewKeyTrace : List Event :=
  [Event.readBody, Event.cacheLock, Event.writeLockID, Event.cacheUnlock,
   Event.entryLock, Event.writeLockID, Event.writeValue, Event.entryUnlock,
   Event.readLockID]

/-- `handleReservation`, success path with a free lock (lines 78-108):
the wait loop reads `lockID` once under the entry lock, a fresh token is
written, then line 103 reads `entry.lockID` and `entry.value` after
`entry.Unlock()`. -/
def reservationTrace : List Event :=
  [Event.cacheRLock, Event.cacheRUnlock, Event.entryLock, Event.readLockID,
   Event.writeLockID, Event.entryUnlock, Event.readLockID, Event.readValue]

/-- Checks the discipline claimed by the spec: every access to a shared
entry's `value` or `lockID` happens while the entry's exclusive lock is
held.  The boolean argument tracks whether the entry lock is currently
held (a `condWait` releases and re-acquires it, so it is held again on
the next step). -/
def entryAccessesLocked : Bool → List Event → Bool
  | _, [] => true
  | _, Event.entryLock :: rest => entryAccessesLocked true rest
  | _, Event.entryUnlock :: rest => entryAccessesLocked false rest
  | held, Event.readLockID :: rest => held && entryAccessesLocked held rest
  | held, Event.writeLockID :: rest => held && entryAccessesLocked held rest
  | held, Event.readValue :: rest => held && entryAccessesLocked held rest
  | held, Event.writeValue :: rest => held && entryAccessesLocked held rest
  | held, _ :: rest => entryAccessesLocked held rest

/-- Detects a `cache.Unlock()` performed while the cache write lock is
not held.  The boolean argument tracks whether the write lock is held. -/
def cacheUnlockWithoutLock : Bool → List Event → Bool
  | _, [] => false
  | _, Event.cacheLock :: rest => cacheUnlockWithoutLock true rest
  | held, Event.cacheUnlock :: rest =>
      !held || cacheUnlockWithoutLock false rest
  | held, _ :: rest => cacheUnlockWithoutLock held rest

/-! ### Map lemmas -/

/-- Looking up the key just stored finds the stored entry. -/
theorem cacheLookup_cacheInsert_self (st : List (String × Entry))
    (key : String) (e : Entry) :
    cacheLookup (cacheInsert st key e) key = some e := by
  induction st with
  | nil => simp [cacheInsert, cacheLookup]
  | cons p rest ih =>
      obtain ⟨k, e0⟩ := p
      by_cases h : k = key
      · simp [cacheInsert, cacheLookup, h]
      · simp [cacheInsert, cacheLookup, h, ih]

/-- Storing under one key leaves lookups of any other key unchanged. -/
theorem cacheLookup_cacheInsert_ne (st : List (String × Entry))
    (key k : String) (e : Entry) (h : k ≠ key) :
    cacheLookup (cacheInsert st key e) k = cacheLookup st k := by
  induction st with
  | nil => simp [cacheInsert, cacheLookup, Ne.symm h]
  | cons p rest ih =>
      obtain ⟨k0, e0⟩ := p
      by_cases hk : k0 = key
      · subst hk
        simp [cacheInsert, cacheLookup, Ne.symm h]
      · simp [cacheInsert, cacheLookup, hk, ih]

/-! ### Claim theorems -/

/-- Claim C1: the spec's invariant says every read and write of an
entry's `value` and `lockID` happens while holding that entry's
exclusive lock, giving mutual exclusion between concurrent updates.  The
code violates it: `handleUpdate`'s success paths read `entry.lockID`
(line 139) and write `entry.value` and `entry.lockID` (lines 144, 148)
without ever taking `entry.Lock()`, and `handleReservation` re-reads
`entry.lockID` and `entry.value` after `entry.Unlock()` (line 103), so
two concurrent updates can both pass the token check at line 139 before
either release is visible. -/
theorem update_entry_access_discipline_violated :
    entryAccessesLocked false updateReleaseTrace = false ∧
    entryAccessesLocked false updateNoReleaseTrace = false ∧
    Event.entryLock ∉ updateReleaseTrace ∧
    Event.entryLock ∉ updateNoReleaseTrace ∧
    entryAccessesLocked false reservationTrace = false := by
  refine ⟨rfl, rfl, by decide, by decide, rfl⟩

/-- Claim C2: when the key is present and the presented token differs
from the entry's current `lockID`, `handleUpdate` answers 401
Unauthorized, returns the cache completely unchanged (no value written,
no lock token changed) and performs no broadcast. -/
theorem update_bad_token_unauthorized (c : Cache) (key tok body : String)
    (rel : List String) (e : Entry)
    (hfound : cacheLookup c.storage key = some e)
    (hbad : e.lockID ≠ tok) :
    handleUpdate c key tok body (some rel) =
      (UpdateResult.unauthorized, c, false) ∧
    updateStatus (handleUpdate c key tok body (some rel)).1 = 401 := by
  have h : handleUpdate c key tok body (some rel) =
      (UpdateResult.unauthorized, c, false) := by
    simp [handleUpdate, hfound, hbad]
  exact ⟨h, by rw [h]; rfl⟩

/-- Claim C2 witness: a concrete cache with one locked entry and a
mismatching token. -/
theorem update_bad_token_unauthorized_witness :
    cacheLookup (Cache.mk [("k", Entry.mk "v" "T")]).storage "k" =
      some (Entry.mk "v" "T") ∧
    (Entry.mk "v" "T").lockID ≠ "X" ∧
    (handleUpdate (Cache.mk [("k", Entry.mk "v" "T")]) "k" "X" "w"
        (some ["true"]) =
      (UpdateResult.unauthorized, Cache.mk [("k", Entry.mk "v" "T")],
        false) ∧
     updateStatus (handleUpdate (Cache.mk [("k", Entry.mk "v" "T")])
        "k" "X" "w" (some ["true"])).1 = 401) :=
  ⟨rfl, by decide,
    update_bad_token_unauthorized (Cache.mk [("k", Entry.mk "v" "T")])
      "k" "X" "w" ["true"] (Entry.mk "v" "T") rfl (by decide)⟩

/-- Claim C5: `handleReservation` on a key that was never set answers
404 NotFound and returns the cache unchanged — no entry is created. -/
theorem reserve_absent_notFound (c : Cache) (key freshToken : String)
    (habs : cacheLookup c.storage key = none) :
    handleReservation c key freshToken = (ReserveResult.notFound, c) := by
  simp [handleReservation, habs]

/-- Claim C5 witness: reserving on the empty cache. -/
theorem reserve_absent_notFound_witness :
    cacheLookup (Cache.mk []).storage "k" = none ∧
    handleReservation (Cache.mk []) "k" "T" =
      (ReserveResult.notFound, Cache.mk []) :=
  ⟨rfl, reserve_absent_notFound (Cache.mk []) "k" "T" rfl⟩

/-- Claim C8: an update request whose query string lacks the `release`
parameter answers 400 BadRequest, mutates nothing (the cache is returned
unchanged) and performs no broadcast. -/
theorem update_missing_release_badRequest (c : Cache)
    (key tok body : String) :
    handleUpdate c key tok body none = (UpdateResult.badRequest, c, false) ∧
    updateStatus (handleUpdate c key tok body none).1 = 400 :=
  ⟨rfl, rfl⟩

/-- Claim C9: on a body-read error both handlers call an unconditional
`self.cache.Unlock()` although the cache write lock is not held at that
point: `handleUpdate` never takes `cache.Lock()` on any of its paths, and
`handleSet` takes it only after the body read succeeds. -/
theorem body_error_unlock_without_lock :
    cacheUnlockWithoutLock false updateBodyErrTrace = true ∧
    cacheUnlockWithoutLock false setBodyErrTrace = true ∧
    Event.cacheLock ∉ updateBodyErrTrace ∧
    Event.cacheLock ∉ updateBadRequestTrace ∧
    Event.cacheLock ∉ updateNotFoundTrace ∧
    Event.cacheLock ∉ updateUnauthorizedTrace ∧
    Event.cacheLock ∉ updateReleaseTrace ∧
    Event.cacheLock ∉ updateNoReleaseTrace ∧
    setNewKeyTrace.indexOf Event.readBody <
      setNewKeyTrace.indexOf Event.cacheLock := by
  refine ⟨rfl, rfl, by decide, by decide, by decide, by decide, by decide,
    by decide, by decide⟩

/-- Helper: an update presenting the entry's current token with a release
request answers 204, stores the body, broadcasts, and clears the lock
token. -/
theorem update_noContent_release (c : Cache) (key tok body : String)
    (rel : List String) (e : Entry)
    (hfound : cacheLookup c.storage key = some e)
    (htok : e.lockID = tok) (hrel : releaseRequested rel = true) :
    handleUpdate c key tok body (some rel) =
      (UpdateResult.noContent,
        Cache.mk (cacheInsert c.storage key (Entry.mk body "")), true) := by
  simp [handleUpdate, hfound, htok, hrel]

/-- Helper: an update presenting the entry's current token without a
release request answers 204, stores the body, keeps the lock token, and
does not broadcast. -/
theorem update_noContent_retain (c : Cache) (key tok body : String)
    (rel : List String) (e : Entry)
    (hfound : cacheLookup c.storage key = some e)
    (htok : e.lockID = tok) (hrel : releaseRequested rel = false) :
    handleUpdate c key tok body (some rel) =
      (UpdateResult.noContent,
        Cache.mk (cacheInsert c.storage key (Entry.mk body tok)), false) := by
  simp [handleUpdate, hfound, htok, hrel]

/-- Claim C3: a completed `handleSet` (one that did not block in the wait
loop) stores the body as the entry's value under the freshly issued token
`t2`, returns exactly that token, and leaves the key locked (`t2` is a
uuid, hence non-empty); afterwards an update presenting `t2` with
`release=true` clears the lock token while any other first `release`
value keeps the key locked under `t2`. -/
theorem set_stores_and_locks (c : Cache) (key body t1 t2 : String)
    (res : SetResult) (c2 : Cache)
    (ht : t2 ≠ "")
    (hrun : handleSet c key body t1 t2 = (res, c2))
    (hdone : res ≠ SetResult.blocked) :
    res = SetResult.ok t2 ∧
    cacheLookup c2.storage key = some (Entry.mk body t2) ∧
    (Entry.mk body t2).lockID ≠ "" ∧
    (∀ body2 rest,
      cacheLookup
        ((handleUpdate c2 key t2 body2 (some ("true" :: rest))).2.1).storage
        key = some (Entry.mk body2 "")) ∧
    (∀ body2 s rest, s ≠ "true" →
      cacheLookup
        ((handleUpdate c2 key t2 body2 (some (s :: rest))).2.1).storage
        key = some (Entry.mk body2 t2)) := by
  have key_facts : res = SetResult.ok t2 ∧
      cacheLookup c2.storage key = some (Entry.mk body t2) := by
    rcases hlook : cacheLookup c.storage key with _ | e
    · simp [handleSet, setCreatePhase, hlook] at hrun
      refine ⟨hrun.1.symm, ?_⟩
      rw [← hrun.2]
      exact cacheLookup_cacheInsert_self _ _ _
    · by_cases hL : e.lockID = ""
      · simp [handleSet, setCreatePhase, hlook, hL] at hrun
        refine ⟨hrun.1.symm, ?_⟩
        rw [← hrun.2]
        exact cacheLookup_cacheInsert_self _ _ _
      · simp [handleSet, setCreatePhase, hlook, hL] at hrun
        exact absurd hrun.1.symm hdone
  obtain ⟨hres, hc2⟩ := key_facts
  refine ⟨hres, hc2, ht, ?_, ?_⟩
  · intro body2 rest
    rw [update_noContent_release c2 key t2 body2 ("true" :: rest)
      (Entry.mk body t2) hc2 rfl rfl]
    exact cacheLookup_cacheInsert_self _ _ _
  · intro body2 s rest hs
    have hrel : releaseRequested (s :: rest) = false := by
      simp [releaseRequested, hs]
    rw [update_noContent_retain c2 key t2 body2 (s :: rest)
      (Entry.mk body t2) hc2 rfl hrel]
    exact cacheLookup_cacheInsert_self _ _ _

/-- Claim C3 witness: setting "k" to "v" on the empty cache with creator
token "T1" and fresh token "T2", then updating with release values
"true" and "false". -/
theorem set_stores_and_locks_witness :
    ("T2" : String) ≠ "" ∧
    handleSet (Cache.mk []) "k" "v" "T1" "T2" =
      (SetResult.ok "T2", Cache.mk [("k", Entry.mk "v" "T2")]) ∧
    SetResult.ok "T2" ≠ SetResult.blocked ∧
    cacheLookup (Cache.mk [("k", Entry.mk "v" "T2")]).storage "k" =
      some (Entry.mk "v" "T2") ∧
    cacheLookup
      ((handleUpdate (Cache.mk [("k", Entry.mk "v" "T2")]) "k" "T2" "w"
          (some ["true"])).2.1).storage "k" = some (Entry.mk "w" "") ∧
    cacheLookup
      ((handleUpdate (Cache.mk [("k", Entry.mk "v" "T2")]) "k" "T2" "w"
          (some ["false"])).2.1).storage "k" = some (Entry.mk "w" "T2") := by
  have h := set_stores_and_locks (Cache.mk []) "k" "v" "T1" "T2"
      (SetResult.ok "T2") (Cache.mk [("k", Entry.mk "v" "T2")])
      (by decide) (by decide) (by decide)
  exact ⟨by decide, by decide, by decide, h.2.1, h.2.2.2.1 "w" [],
    h.2.2.2.2 "w" "false" [] (by decide)⟩

/-- Claim C4: after an update that presents the entry's current token
with `release=true` succeeds (204, broadcast, value set to the body, lock
token cleared), a subsequent reservation of the same key does not block:
it immediately answers 200 with a fresh token and the value written by
the update. -/
theorem release_then_reserve (c : Cache) (key tok body freshToken : String)
    (rel : List String) (e : Entry)
    (hfound : cacheLookup c.storage key = some e)
    (htok : e.lockID = tok)
    (hrel : releaseRequested rel = true) :
    handleUpdate c key tok body (some rel) =
      (UpdateResult.noContent,
        Cache.mk (cacheInsert c.storage key (Entry.mk body "")), true) ∧
    cacheLookup (cacheInsert c.storage key (Entry.mk body "")) key =
      some (Entry.mk body "") ∧
    handleReservation
        (Cache.mk (cacheInsert c.storage key (Entry.mk body ""))) key
        freshToken =
      (ReserveResult.ok freshToken body,
        Cache.mk (cacheInsert (cacheInsert c.storage key (Entry.mk body ""))
          key (Entry.mk body freshToken))) := by
  have h2 : cacheLookup (cacheInsert c.storage key (Entry.mk body "")) key =
      some (Entry.mk body "") := cacheLookup_cacheInsert_self _ _ _
  refine ⟨update_noContent_release c key tok body rel e hfound htok hrel,
    h2, ?_⟩
  simp [handleReservation, h2]

/-- Claim C4 witness: a concrete locked entry, released by update, then
reserved. -/
theorem release_then_reserve_witness :
    cacheLookup (Cache.mk [("k", Entry.mk "v" "T")]).storage "k" =
      some (Entry.mk "v" "T") ∧
    (Entry.mk "v" "T").lockID = "T" ∧
    releaseRequested ["true"] = true ∧
    (handleUpdate (Cache.mk [("k", Entry.mk "v" "T")]) "k" "T" "w"
        (some ["true"]) =
      (UpdateResult.noContent,
        Cache.mk (cacheInsert [("k", Entry.mk "v" "T")] "k"
          (Entry.mk "w" "")), true) ∧
     cacheLookup (cacheInsert [("k", Entry.mk "v" "T")] "k" (Entry.mk "w" ""))
        "k" = some (Entry.mk "w" "") ∧
     handleReservation
        (Cache.mk (cacheInsert [("k", Entry.mk "v" "T")] "k"
          (Entry.mk "w" ""))) "k" "F" =
      (ReserveResult.ok "F" "w",
        Cache.mk (cacheInsert
          (cacheInsert [("k", Entry.mk "v" "T")] "k" (Entry.mk "w" "")) "k"
          (Entry.mk "w" "F")))) :=
  ⟨rfl, rfl, rfl,
    release_then_reserve (Cache.mk [("k", Entry.mk "v" "T")]) "k" "T" "w"
      "F" ["true"] (Entry.mk "v" "T") rfl rfl rfl⟩

/-- Claim C6: an update presenting the entry's current token with
`release=false` answers 204, stores the body as the value, and changes
nothing else — the lock token remains `tok`, no broadcast wakes any
waiter, and every other key's binding is untouched. -/
theorem update_retain_frame (c : Cache) (key tok body : String)
    (rest : List String) (e : Entry)
    (hfound : cacheLookup c.storage key = some e)
    (htok : e.lockID = tok) :
    handleUpdate c key tok body (some ("false" :: rest)) =
      (UpdateResult.noContent,
        Cache.mk (cacheInsert c.storage key (Entry.mk body tok)), false) ∧
    cacheLookup (cacheInsert c.storage key (Entry.mk body tok)) key =
      some (Entry.mk body tok) ∧
    ∀ k, k ≠ key →
      cacheLookup (cacheInsert c.storage key (Entry.mk body tok)) k =
        cacheLookup c.storage k :=
  ⟨update_noContent_retain c key tok body ("false" :: rest) e hfound htok rfl,
   cacheLookup_cacheInsert_self _ _ _,
   fun _ hk => cacheLookup_cacheInsert_ne _ _ _ _ hk⟩

/-- Claim C6 witness: a two-key cache; the update of "k" leaves "j"
untouched and keeps the lock. -/
theorem update_retain_frame_witness :
    cacheLookup (Cache.mk [("k", Entry.mk "v" "T"), ("j", Entry.mk "u" "")]).storage
      "k" = some (Entry.mk "v" "T") ∧
    (Entry.mk "v" "T").lockID = "T" ∧
    handleUpdate (Cache.mk [("k", Entry.mk "v" "T"), ("j", Entry.mk "u" "")])
        "k" "T" "w" (some ["false"]) =
      (UpdateResult.noContent,
        Cache.mk (cacheInsert [("k", Entry.mk "v" "T"), ("j", Entry.mk "u" "")]
          "k" (Entry.mk "w" "T")), false) ∧
    cacheLookup (cacheInsert [("k", Entry.mk "v" "T"), ("j", Entry.mk "u" "")]
        "k" (Entry.mk "w" "T")) "k" = some (Entry.mk "w" "T") ∧
    ("j" : String) ≠ "k" ∧
    cacheLookup (cacheInsert [("k", Entry.mk "v" "T"), ("j", Entry.mk "u" "")]
        "k" (Entry.mk "w" "T")) "j" =
      cacheLookup [("k", Entry.mk "v" "T"), ("j", Entry.mk "u" "")] "j" := by
  have h := update_retain_frame
      (Cache.mk [("k", Entry.mk "v" "T"), ("j", Entry.mk "u" "")])
      "k" "T" "w" [] (Entry.mk "v" "T") rfl rfl
  exact ⟨rfl, rfl, h.1, h.2.1, by decide, h.2.2 "j" (by decide)⟩

/-- Claim C7 counterexample: set on an absent key with creator token "T1"
and fresh token "T2" leaves the entry locked under "T2", not under the
creator-acquired token "T1" — the lock `set` finally holds does not reuse
the creator token, which is overwritten at line 184. -/
theorem set_creator_token_not_reused :
    handleSet (Cache.mk []) "k" "v" "T1" "T2" =
      (SetResult.ok "T2", Cache.mk [("k", Entry.mk "v" "T2")]) ∧
    cacheLookup (Cache.mk [("k", Entry.mk "v" "T2")]).storage "k" =
      some (Entry.mk "v" "T2") ∧
    (Entry.mk "v" "T2").lockID ≠ "T1" :=
  ⟨by decide, rfl, by decide⟩

/-- Claim C7 as amended: set on an absent key creates the entry
pre-locked under the non-empty creator token (so its `ok` flag is false
and the wait loop is skipped — no wait is performed), and then overwrites
that creator token: the freshly issued token `t2` becomes both the lock
finally held and the token stored and returned to the caller. -/
theorem set_absent_prelocked_fresh_lock (c : Cache) (key body t1 t2 : String)
    (habs : cacheLookup c.storage key = none) (h1 : t1 ≠ "") :
    setCreatePhase c key t1 =
      (Entry.mk "" t1, false,
        Cache.mk (cacheInsert c.storage key (Entry.mk "" t1))) ∧
    (Entry.mk "" t1).lockID ≠ "" ∧
    handleSet c key body t1 t2 =
      (SetResult.ok t2,
        Cache.mk (cacheInsert (cacheInsert c.storage key (Entry.mk "" t1))
          key (Entry.mk body t2))) ∧
    cacheLookup (cacheInsert (cacheInsert c.storage key (Entry.mk "" t1))
        key (Entry.mk body t2)) key = some (Entry.mk body t2) := by
  refine ⟨by simp [setCreatePhase, habs], h1, ?_,
    cacheLookup_cacheInsert_self _ _ _⟩
  simp [handleSet, setCreatePhase, habs]

/-- Claim C7 amended witness: the concrete first set of key "k". -/
theorem set_absent_prelocked_fresh_lock_witness :
    cacheLookup (Cache.mk []).storage "k" = none ∧
    ("T1" : String) ≠ "" ∧
    (setCreatePhase (Cache.mk []) "k" "T1" =
      (Entry.mk "" "T1", false,
        Cache.mk (cacheInsert [] "k" (Entry.mk "" "T1"))) ∧
     (Entry.mk "" "T1").lockID ≠ "" ∧
     handleSet (Cache.mk []) "k" "v" "T1" "T2" =
      (SetResult.ok "T2",
        Cache.mk (cacheInsert (cacheInsert [] "k" (Entry.mk "" "T1")) "k"
          (Entry.mk "v" "T2"))) ∧
     cacheLookup (cacheInsert (cacheInsert [] "k" (Entry.mk "" "T1")) "k"
        (Entry.mk "v" "T2")) "k" = some (Entry.mk "v" "T2")) :=
  ⟨rfl, by decide,
    set_absent_prelocked_fresh_lock (Cache.mk []) "k" "v" "T1" "T2" rfl
      (by decide)⟩

/-- Claim C10: with the `release` parameter present, a valid key and a
matching token, only the parameter's first value is compared against the
exact string "true": for any other first value the update still answers
204, stores the body as the value and retains the lock token. -/
theorem update_release_checks_only_true (c : Cache)
    (key tok body s : String) (rest : List String) (e : Entry)
    (hfound : cacheLookup c.storage key = some e)
    (htok : e.lockID = tok)
    (hs : s ≠ "true") :
    handleUpdate c key tok body (some (s :: rest)) =
      (UpdateResult.noContent,
        Cache.mk (cacheInsert c.storage key (Entry.mk body tok)), false) ∧
    updateStatus (handleUpdate c key tok body (some (s :: rest))).1 = 204 ∧
    cacheLookup (cacheInsert c.storage key (Entry.mk body tok)) key =
      some (Entry.mk body tok) := by
  have hrel : releaseRequested (s :: rest) = false := by
    simp [releaseRequested, hs]
  have h1 := update_noContent_retain c key tok body (s :: rest) e hfound
    htok hrel
  refine ⟨h1, ?_, cacheLookup_cacheInsert_self _ _ _⟩
  rw [h1]
  rfl

/-- Claim C10 witness: the release value "True" (wrong case) is not
recognised as a release but the update still succeeds with 204. -/
theorem update_release_checks_only_true_witness :
    cacheLookup (Cache.mk [("k", Entry.mk "v" "T")]).storage "k" =
      some (Entry.mk "v" "T") ∧
    (Entry.mk "v" "T").lockID = "T" ∧
    ("True" : String) ≠ "true" ∧
    (handleUpdate (Cache.mk [("k", Entry.mk "v" "T")]) "k" "T" "w"
        (some ["True"]) =
      (UpdateResult.noContent,
        Cache.mk (cacheInsert [("k", Entry.mk "v" "T")] "k"
          (Entry.mk "w" "T")), false) ∧
     updateStatus (handleUpdate (Cache.mk [("k", Entry.mk "v" "T")])
        "k" "T" "w" (some ["True"])).1 = 204 ∧
     cacheLookup (cacheInsert [("k", Entry.mk "v" "T")] "k" (Entry.mk "w" "T"))
        "k" = some (Entry.mk "w" "T")) :=
  ⟨rfl, rfl, by decide,
    update_release_checks_only_true (Cache.mk [("k", Entry.mk "v" "T")])
      "k" "T" "w" "True" [] (Entry.mk "v" "T") rfl rfl (by decide)⟩

end MiniDB
